import Mathlib

/-!
Shallow embedding of the core reconciliation logic of the repository:
the store-directory normalizer and invoice-key resolver
(src/app/library/utils.py), the Costco transaction aggregation and
header scan (src/app/routes/costco.py), and the sales block parser
and validator (src/app/routes/sales.py).

Conventions of the embedding:
* Python strings are Lean `String`s; the Python string methods used by
  the source (strip, lower, split, startswith, lstrip, rstrip, zfill,
  negative slicing) are re-implemented below on `String.data` so that
  every definition is structurally recursive and kernel-evaluable.
  Python `str.isdigit` / `re`'s digit class are modelled as the ASCII
  digits (the inputs of interest are ASCII).
* Python dicts keyed by strings are modelled as functions
  `String -> Option String`; insertion overwrites the binding.
* Monetary amounts (Python floats holding parsed decimals) are
  modelled as exact rationals.
* Code that raises an uncaught exception is modelled with `Except`.
-/

/-- Python `s.strip()` on ASCII text: drop leading and trailing
whitespace. -/
def pyStrip (s : String) : String :=
  ⟨((s.data.dropWhile Char.isWhitespace).reverse.dropWhile
      Char.isWhitespace).reverse⟩

/-- Python `s.lower()` on ASCII text. -/
def pyLower (s : String) : String :=
  ⟨s.data.map Char.toLower⟩

/-- Python `s.startswith(p)`. -/
def pyStartsWith (s p : String) : Bool :=
  s.data.take p.data.length == p.data

/-- Python `s.isdigit()` restricted to ASCII digits: nonempty and all
characters are digits. -/
def pyIsDigit (s : String) : Bool :=
  !s.data.isEmpty && s.data.all Char.isDigit

/-- Python slicing `s[:n]` for an `int` index `n`: a nonnegative `n`
keeps the first `n` characters, a negative `n` drops the last `|n|`
characters (both clamped). -/
def pyTake (s : String) (n : Int) : String :=
  if n < 0 then ⟨s.data.take (s.data.length - n.natAbs)⟩
  else ⟨s.data.take n.toNat⟩

/-- Python `s[:-1]`: drop the final character (empty stays empty). -/
def pyDropLast (s : String) : String :=
  ⟨s.data.dropLast⟩

/-- Python `s.lstrip("0")`: drop leading zero characters. -/
def lstrip0 (s : String) : String :=
  ⟨s.data.dropWhile (fun c => c = '0')⟩

/-- Python `s.rstrip("0")`: drop trailing zero characters. -/
def rstrip0 (s : String) : String :=
  ⟨(s.data.reverse.dropWhile (fun c => c = '0')).reverse⟩

/-- Python `s.zfill(w)` for the digit-only strings this code applies it
to: left-pad with the character 0 up to width `w` (a string already at
least `w` long is returned unchanged; the source never passes a signed
string here, so sign handling is irrelevant). -/
def zfill (w : Nat) (s : String) : String :=
  if w ≤ s.data.length then s
  else ⟨List.replicate (w - s.data.length) '0' ++ s.data⟩

/-- Python `s.split(" ")`: split on every single space, keeping empty
fields; the split of the empty string is one empty field. -/
def pySplitSpaceAux : List Char → List Char → List String
  | [], cur => [⟨cur.reverse⟩]
  | c :: cs, cur =>
    if c = ' ' then ⟨cur.reverse⟩ :: pySplitSpaceAux cs []
    else pySplitSpaceAux cs (c :: cur)

/-- Python `s.split(" ")`. -/
def pySplitSpace (s : String) : List String :=
  pySplitSpaceAux s.data []

/-- Python `"-".join(parts)`. -/
def hyphenJoin : List String → String
  | [] => ""
  | [x] => x
  | x :: xs => x ++ "-" ++ hyphenJoin xs

/-- `re.findall(r"\d+", s)` helper: accumulate the current digit run
(reversed) while scanning the characters. -/
def digitRunsAux : List Char → List Char → List String
  | [], cur => if cur.isEmpty then [] else [⟨cur.reverse⟩]
  | c :: cs, cur =>
    if c.isDigit then digitRunsAux cs (c :: cur)
    else if cur.isEmpty then digitRunsAux cs []
    else ⟨cur.reverse⟩ :: digitRunsAux cs []

/-- `re.findall(r"\d+", s)`: the maximal runs of digits in `s`, in
order. -/
def digitRuns (s : String) : List String :=
  digitRunsAux s.data []

/-- A store directory (Python dict from short code to long name),
modelled as a partial map. -/
def StoreDirectory : Type := String → Option String

/-- The empty dict. -/
def emptyDir : StoreDirectory := fun _ => none

/-- `d[k] = v`: dict insertion, overwriting any previous binding. -/
def dinsert (d : StoreDirectory) (k v : String) : StoreDirectory :=
  fun q => if q = k then some v else d q

/-- `extract_key` from src/app/library/utils.py (lines 34-57): tiered
resolution of an invoice identifier against the store directory. -/
def extract_key (invoice_num : String) (store_names : StoreDirectory)
    (n : Int := -6) : String :=
  if invoice_num = "" then "0000"
  else
    match digitRuns (pyTake invoice_num n) with
    | [] => "0000"
    | d :: _ =>
      let res := zfill 4 (lstrip0 d)
      if (store_names res).isSome then res
      else
        let lres := lstrip0 res
        if (store_names lres).isSome then lres
        else
          let rres := zfill 4 (rstrip0 res)
          if (store_names rres).isSome then rres
          else "0000"

/-- Modelled from the spec's wording of the resolver tiers (section
4.2 steps 5-8 and the tie-break sentence): the first of candidate,
left-stripped candidate, right-stripped-then-padded candidate that is
a key of the directory, else the sentinel. Used to compare the spec's
description against `extract_key`. -/
def resolverTiers (cand : String) (D : StoreDirectory) : String :=
  match [cand, lstrip0 cand, zfill 4 (rstrip0 cand)].find?
      (fun k => (D k).isSome) with
  | some k => k
  | none => "0000"

/-- The inner `key_formatter` of `get_store_names`
(src/app/library/utils.py lines 63-75): stringify and trim the code
cell, drop empty and "nan" cells via the exclusion sentinel "-1",
strip leading number signs, keep fully numeric strings zero-padded to
4 digits. -/
def key_formatter (s0 : String) : String :=
  let s1 := pyStrip s0
  if s1 = "" ∨ pyLower s1 = "nan" then "-1"
  else
    let s2 := if pyStartsWith s1 "#" then ⟨s1.data.dropWhile (fun c => c = '#')⟩
              else s1
    if pyIsDigit s2 then zfill 4 s2 else "-1"

/-- A decoded tabular mapping file (`pd.read_csv(..., header=None)`
result): a column count and rows of stringified cells.  A cell read
past a row's width is a pandas NaN, which stringifies to "nan". -/
structure MapTable where
  nCols : Nat
  rows : List (List String)

/-- Cell access with the pandas NaN fill for short rows. -/
def cellAt (r : List String) (i : Nat) : String :=
  r.getD i "nan"

/-- The two-sentinel fallback directory returned by `get_store_names`
when the table is unreadable or has fewer than 2 columns. -/
def fallbackDir : StoreDirectory :=
  dinsert (dinsert emptyDir "1997" "C991997") "0000" "Unknown"

/-- One step of the row loop of `get_store_names`: format the code
cell and, unless it is excluded, bind it to the trimmed long name. -/
def storeRowStep (d : StoreDirectory) (p : String × String) : StoreDirectory :=
  let fk := key_formatter p.2
  if fk ≠ "-1" then dinsert d fk (pyStrip p.1) else d

/-- `get_store_names` from src/app/library/utils.py (lines 60-108) on
an already-decoded table; `none` models the read raising an exception,
in which case the two-sentinel fallback is returned.  Long name is
column 0; short code is column 2 when at least 3 columns exist, else
column 1; fewer than 2 columns yields only the sentinels.  The two
sentinel entries are force-inserted last. -/
def get_store_names (input : Option MapTable) : StoreDirectory :=
  match input with
  | none => fallbackDir
  | some t =>
    let pairs? : Option (List (String × String)) :=
      if 3 ≤ t.nCols then some (t.rows.map fun r => (cellAt r 0, cellAt r 2))
      else if 2 ≤ t.nCols then some (t.rows.map fun r => (cellAt r 0, cellAt r 1))
      else none
    match pairs? with
    | none => fallbackDir
    | some pairs =>
      let base := pairs.foldl storeRowStep emptyDir
      dinsert (dinsert base "1997" "C991997") "0000" "Unknown"

/-- The per-row store-name resolution of `process_costco_analysis`
(src/app/routes/costco.py lines 141-157): first pass with the default
offset; rows still named "Unknown" are re-resolved with offset -7 when
the invoice string has at least 11 characters, else -6 again, and the
second result is kept either way. -/
def resolveStoreName (D : StoreDirectory) (inv : String) : String :=
  let k := extract_key inv D
  let nm := (D k).getD "Unknown"
  if nm = "Unknown" then
    let n : Int := if 11 ≤ inv.data.length then -7 else -6
    (D (extract_key inv D n)).getD "Unknown"
  else nm

/-- `df2 = df[["storeName", "amount"]].groupby("storeName").sum()`
(src/app/routes/costco.py lines 159-160): for each distinct name, in
first-appearance order, the sum of the amounts of its rows (pandas
additionally sorts the group keys, which no claim depends on). -/
def groupSum (pairs : List (String × ℚ)) : List (String × ℚ) :=
  ((pairs.map Prod.fst).dedup).map fun nm =>
    (nm, ((pairs.filter fun p => p.1 == nm).map Prod.snd).sum)

/-- The per-file store summary of `process_costco_analysis`: resolve
every parsed row's store name, then group by name and sum amounts. -/
def storeSummary (D : StoreDirectory) (rows : List (String × ℚ)) :
    List (String × ℚ) :=
  groupSum (rows.map fun r => (resolveStoreName D r.1, r.2))

/-- The `(\d{1,2})` piece of the MM/DD regex: greedily take two digits
when available, else one, returning the match and the rest. -/
def grabDigits12 : List Char → Option (List Char × List Char)
  | a :: b :: rest =>
    if a.isDigit then
      if b.isDigit then some ([a, b], rest)
      else some ([a], b :: rest)
    else none
  | [a] => if a.isDigit then some ([a], []) else none
  | [] => none

/-- Attempt of the regex `(\d{1,2}/\d{1,2})` anchored at the start of
the character list.  No backtracking is needed: when two digits are
taken, the character after them is a digit, never the required slash. -/
def mmddAt (cs : List Char) : Option String :=
  match grabDigits12 cs with
  | some (g1, r1) =>
    match r1 with
    | '/' :: r2 =>
      match grabDigits12 r2 with
      | some (g2, _) => some ⟨g1 ++ '/' :: g2⟩
      | none => none
    | _ => none
  | none => none

/-- Leftmost search for `(\d{1,2}/\d{1,2})`, as `re.search` does. -/
def mmddSearch : List Char → Option String
  | [] => none
  | c :: cs =>
    match mmddAt (c :: cs) with
    | some m => some m
    | none => mmddSearch cs

/-- `extract_mm_dd` from src/app/library/utils.py (lines 17-22). -/
def extract_mm_dd (text : String) : Bool × Option String :=
  match mmddSearch text.data with
  | some m => (true, some m)
  | none => (false, none)

/-- Leftmost search for `#(\d+)`, returning the captured digit run, as
`re.search` does. -/
def payIdSearch : List Char → Option String
  | [] => none
  | c :: cs =>
    if c = '#' ∧ (cs.headD ' ').isDigit then some ⟨cs.takeWhile Char.isDigit⟩
    else payIdSearch cs

/-- `extract_payment_id` from src/app/library/utils.py (lines 25-31). -/
def extract_payment_id (text : String) : Bool × Option String :=
  match payIdSearch text.data with
  | some m => (true, some m)
  | none => (false, none)

/-- The first-page header scan of `process_costco_analysis`
(src/app/routes/costco.py lines 82-92): each line beginning with
"Date" whose MM/DD extraction succeeds appends its match; the first
line beginning with "Payment" whose payment-id extraction succeeds
appends its id and stops the scan. -/
def headerScan : List String → List String
  | [] => []
  | l :: ls =>
    if pyStartsWith l "Date" then
      match (extract_mm_dd l).2 with
      | some d => d :: headerScan ls
      | none => headerScan ls
    else if pyStartsWith l "Payment" then
      match (extract_payment_id l).2 with
      | some p => [p]
      | none => headerScan ls
    else headerScan ls

/-- The per-file section name of `process_costco_analysis`
(src/app/routes/costco.py lines 162-165): the first two collected
header values joined as date-hash-id; the indexing raises when fewer
than two values were collected, and the handler falls back to the
original uploaded filename. -/
def sectionName (lines : List String) (origName : String) : String :=
  match headerScan lines with
  | v0 :: v1 :: _ => v0 ++ " #" ++ v1
  | _ => origName

/-- A row of the sales export after the column relabeling
(src/app/routes/sales.py line 38): the Customer cell (`none` models a
non-string cell such as a pandas NaN) and the Cost cell (modelled as
an exact rational; the claims only exercise numeric Cost cells). -/
structure SRow where
  customer : Option String
  cost : ℚ
deriving DecidableEq

/-- A salesperson's metric block: the inner
`defaultdict(float)` of `process_sales_analysis`, as an association
list in insertion order. -/
abbrev Metrics : Type := List (String × ℚ)

/-- The outer `sales` dict of `process_sales_analysis`: salesperson
to metric block, in insertion order. -/
abbrev Sales : Type := List (String × Metrics)

/-- `sales[salesperson][key] += v` on the inner dict: accumulate into
an existing binding, or append a fresh one (the defaultdict starts the
fresh value at zero before adding `v`). -/
def addMetric (m : Metrics) (k : String) (v : ℚ) : Metrics :=
  match m with
  | [] => [(k, v)]
  | (k', x) :: rest =>
    if k' = k then (k', x + v) :: rest else (k', x) :: addMetric rest k v

/-- `sales[salesperson][key] += v` on the outer dict. -/
def addAmount (sales : Sales) (person k : String) (v : ℚ) : Sales :=
  match sales with
  | [] => [(person, addMetric [] k v)]
  | (p', m) :: rest =>
    if p' = person then (p', addMetric m k v) :: rest
    else (p', m) :: addAmount rest person k v

/-- The metric-key derivation of `process_sales_analysis` (line 61):
the Customer cell lower-cased, stripped, split on spaces and re-joined
with hyphens (the final character is dropped at the point of use). -/
def metricKeyOf (c : String) : String :=
  hyphenJoin (pySplitSpace (pyStrip (pyLower c)))

/-- The inner `while temp <= j` loop of `process_sales_analysis`
(lines 60-64): read `cnt` consecutive metric rows starting at absolute
index `temp` of the table, accumulating into the salesperson's block.
Reading past the table (a pandas KeyError) or a non-string Customer
cell (an AttributeError on `.lower()`) raises, modelled as an error. -/
def readBlock (df : List SRow) (person : String) :
    Nat → Nat → Sales → Except Unit Sales
  | _, 0, acc => Except.ok acc
  | temp, cnt + 1, acc =>
    match df.get? temp with
    | none => Except.error ()
    | some row =>
      match row.customer with
      | none => Except.error ()
      | some c =>
        readBlock df person (temp + 1) cnt
          (addAmount acc person (pyDropLast (metricKeyOf c)) row.cost)

/-- The block-scan loop of `process_sales_analysis` (lines 48-64) over
the remaining rows, carrying the absolute index `i` of the first
remaining row and the skip bound `j`: rows with index at most `j` are
already consumed; a string Customer cell starting (case-insensitively)
with "salesperson" opens a block named by the cell's second
space-delimited token — whose absence is an uncaught IndexError,
modelled as an error — and consumes the next three rows. -/
def scanAux (df : List SRow) : List SRow → Nat → Int → Sales → Except Unit Sales
  | [], _, _, acc => Except.ok acc
  | row :: rest, i, j, acc =>
    if (i : Int) ≤ j then scanAux df rest (i + 1) j acc
    else
      match row.customer with
      | some c =>
        if pyStartsWith (pyLower c) "salesperson" then
          match (pySplitSpace c).get? 1 with
          | none => Except.error ()
          | some person =>
            match readBlock df person (i + 1) 3 acc with
            | Except.ok acc' => scanAux df rest (i + 1) ((i : Int) + 3) acc'
            | Except.error e => Except.error e
        else scanAux df rest (i + 1) j acc
      | none => scanAux df rest (i + 1) j acc

/-- The whole block scan of `process_sales_analysis` on a table whose
positional and label indices coincide (no all-empty rows were
dropped): `j` starts at -1 and `sales` starts empty. -/
def scanBlocks (df : List SRow) : Except Unit Sales :=
  scanAux df df 0 (-1) []

/-- `sum(values.values())` for one salesperson's block. -/
def metricSum (m : Metrics) : ℚ :=
  (m.map Prod.snd).sum

/-- The per-salesperson output table after the empty-block removal of
`process_sales_analysis` (lines 67-79): exactly the salespersons whose
metric values sum to a nonzero amount are kept, in order. -/
def retainedSales (sales : Sales) : Sales :=
  sales.filter fun p => decide (metricSum p.2 ≠ 0)

/-- `values[k]` on a metric block, with the defaultdict zero for a
missing key. -/
def metricVal (m : Metrics) (k : String) : ℚ :=
  ((m.find? fun q => decide (q.1 = k)).map Prod.snd).getD 0

/-- The actual totals of `process_sales_analysis` (lines 67-76) before
the final rounding, which no claim depends on: the per-metric sum over
the retained salespersons. -/
def actualTotals (sales : Sales) (k : String) : ℚ :=
  ((retainedSales sales).map fun p => metricVal p.2 k).sum

instance {ε α : Type} [DecidableEq ε] [DecidableEq α] :
    DecidableEq (Except ε α) := fun a b =>
  match a, b with
  | Except.ok x, Except.ok y =>
    if h : x = y then isTrue (by rw [h]) else
      isFalse (fun hh => h (Except.ok.inj hh))
  | Except.error x, Except.error y =>
    if h : x = y then isTrue (by rw [h]) else
      isFalse (fun hh => h (Except.error.inj hh))
  | Except.ok _, Except.error _ => isFalse (fun hh => Except.noConfusion hh)
  | Except.error _, Except.ok _ => isFalse (fun hh => Except.noConfusion hh)

/-- A directory holding both "0120" and "0012", as the normalizer
could produce from codes 120 and 12. -/
def dirBothPads : StoreDirectory :=
  dinsert (dinsert emptyDir "0120" "Store A") "0012" "Store B"

/-- A directory holding only "0012". -/
def dirRightPad : StoreDirectory :=
  dinsert emptyDir "0012" "Store B"

/-- A mapping table whose single row names a store literally
"Unknown" under code 42. -/
def unknownNameTable : MapTable :=
  ⟨2, [["Unknown", "42"]]⟩

/-- A mapping table whose single row carries a 5-digit code. -/
def wideCodeTable : MapTable :=
  ⟨2, [["X", "12345"]]⟩

/-- The sales-export scenario of the spec: a salesperson row for John
followed by the three metric rows. -/
def salesFrameScenario : List SRow :=
  [⟨some "Salesperson John", 0⟩, ⟨some "Period To Date", 100⟩,
   ⟨some "Year To Date", 200⟩, ⟨some "Prior Year", 50⟩]

/-- The metric block the scan produces for John from
`salesFrameScenario`. -/
def blockJohn : Metrics :=
  [("period-to-dat", 100), ("year-to-dat", 200), ("prior-yea", 50)]

/-- A sales export whose second row's Customer cell is the single
token "Salesperson"; that row is consumed as a metric row of the block
opened by the first row. -/
def salesFrameConsumed : List SRow :=
  [⟨some "Salesperson John", 0⟩, ⟨some "Salesperson", 100⟩,
   ⟨some "A B", 200⟩, ⟨some "C D", 50⟩]

/-- A one-row sales export whose Customer cell is the single token
"Salesperson". -/
def salesFrameLone : List SRow :=
  [⟨some "Salesperson", 5⟩]

/-- A parsed sales dict with one salesperson whose single metric value
is zero. -/
def salesZeroBlock : Sales :=
  [("John", [("period-to-dat", 0)])]

/-- A line that matches neither header extraction. -/
def headerLinesNoMatch : List String :=
  ["Hello world"]

/-- A first-page line that contributes nothing to the header scan and
does not stop it: if it begins with "Date" its MM/DD extraction fails,
and if it begins with "Payment" its payment-id extraction fails. -/
def headerSkip (l : String) : Prop :=
  (pyStartsWith l "Date" = true → (extract_mm_dd l).2 = none) ∧
  (pyStartsWith l "Payment" = true → (extract_payment_id l).2 = none)

/-- Shape of a normalizer key: all characters are digits and there are
at least 4 of them. -/
def digitKeyShape (k : String) : Prop :=
  k.data.all Char.isDigit = true ∧ 4 ≤ k.data.length

/-- Dropping matching characters from the front passes over a
replicated matching character. -/
theorem dropWhile_replicate_append {α : Type} (p : α → Bool) (c : α)
    (hc : p c = true) (k : Nat) (l : List α) :
    (List.replicate k c ++ l).dropWhile p = l.dropWhile p := by
  induction k with
  | zero => rfl
  | succ m ih => simp [List.replicate_succ, List.dropWhile_cons, hc, ih]

/-- Left-stripping zeros after zero-padding a left-stripped string
recovers the left-stripped string. -/
theorem lstrip0_zfill (d : String) :
    lstrip0 (zfill 4 (lstrip0 d)) = lstrip0 d := by
  unfold lstrip0 zfill
  by_cases h : 4 ≤ (List.dropWhile (fun c => decide (c = '0')) d.data).length
  · simp only [if_pos h, List.dropWhile_idempotent]
  · simp only [if_neg h]
    rw [dropWhile_replicate_append _ '0' (by decide), List.dropWhile_idempotent]

/-- Regardless of input, the normalizer's output binds "0000" to
"Unknown" and "1997" to "C991997". -/
theorem get_store_names_sentinel_entries (input : Option MapTable) :
    get_store_names input "0000" = some "Unknown" ∧
    get_store_names input "1997" = some "C991997" := by
  have hfb : fallbackDir "0000" = some "Unknown" ∧
      fallbackDir "1997" = some "C991997" := by constructor <;> rfl
  cases input with
  | none => exact hfb
  | some t =>
    unfold get_store_names
    dsimp only
    by_cases h3 : 3 ≤ t.nCols
    · simp only [if_pos h3]
      constructor <;> simp [dinsert]
    · by_cases h2 : 2 ≤ t.nCols
      · simp only [if_neg h3, if_pos h2]
        constructor <;> simp [dinsert]
      · simp only [if_neg h3, if_neg h2]
        exact hfb

/-- C3: for every input to the Store Directory Normalizer — any
tabular content, including tables defining codes "0000" or "1997",
tables with fewer than 2 columns, and inputs whose read raises — the
returned directory maps "0000" to "Unknown" and "1997" to "C991997",
the sentinels overwriting any row-derived entries. -/
theorem normalizer_sentinels_always_present (input : Option MapTable) :
    get_store_names input "0000" = some "Unknown" ∧
    get_store_names input "1997" = some "C991997" :=
  get_store_names_sentinel_entries input

/-- The resolver's result is the sentinel or a key of the directory:
the kernel of claim C9. -/
theorem extract_key_sentinel_or_mem (s : String) (D : StoreDirectory) (n : Int) :
    extract_key s D n = "0000" ∨ (D (extract_key s D n)).isSome = true := by
  unfold extract_key
  split
  · exact Or.inl rfl
  · split
    · exact Or.inl rfl
    · dsimp only
      split
      · next h => exact Or.inr h
      · split
        · next h => exact Or.inr h
        · split
          · next h => exact Or.inr h
          · exact Or.inl rfl

/-- C9 (amended): the Invoice Key Resolver's value is either the
sentinel "0000" or a key present in the directory, for every
identifier, directory and truncation offset; consequently, on any
directory built by the Normalizer — which always contains "0000" —
the resolved store-name lookup always finds the key, so the lookup's
default branch is never taken.  (Dropped from the original claim: that
"Unknown" arises only via the "0000" entry; a mapping row can bind
another code to the literal name "Unknown".) -/
theorem resolver_key_always_in_normalized_directory :
    (∀ (s : String) (D : StoreDirectory) (n : Int),
        extract_key s D n = "0000" ∨ (D (extract_key s D n)).isSome = true) ∧
    (∀ (input : Option MapTable) (s : String) (n : Int),
        ((get_store_names input)
          (extract_key s (get_store_names input) n)).isSome = true) := by
  refine ⟨extract_key_sentinel_or_mem, fun input s n => ?_⟩
  rcases extract_key_sentinel_or_mem s (get_store_names input) n with h | h
  · rw [h, (get_store_names_sentinel_entries input).1]
    rfl
  · exact h

/-- C9 counterexample: on the directory built from a mapping row whose
long name is literally "Unknown" under code 42, the identifier
"42abcdef" resolves to key "0042", whose entry is "Unknown" — so the
name "Unknown" arises via an entry other than "0000", refuting the
claim's final clause. -/
theorem resolver_unknown_not_only_via_sentinel :
    extract_key "42abcdef" (get_store_names (some unknownNameTable)) = "0042" ∧
    get_store_names (some unknownNameTable) "0042" = some "Unknown" ∧
    "0042" ≠ "0000" := by
  refine ⟨by decide, by decide, by decide⟩

/-- C1: for every directory, every nonempty identifier and every
negative offset (truncation drops the last `|n|` characters) whose
truncated form has a digit run, the resolver returns the first match,
in this order, among the candidate (first run, leading zeros stripped,
zero-padded to 4), the candidate left-stripped un-padded, the
candidate right-stripped re-padded, else the sentinel "0000" — the
spec-worded tier order `resolverTiers`. -/
theorem resolver_matches_spec_tier_order (D : StoreDirectory) (s : String)
    (n : Int) (d : String) (ds : List String) (hn : n < 0) (hs : s ≠ "")
    (hd : digitRuns (pyTake s n) = d :: ds) :
    extract_key s D n = resolverTiers (zfill 4 (lstrip0 d)) D := by
  unfold extract_key resolverTiers
  rw [if_neg hs, hd]
  dsimp only
  cases h1 : (D (zfill 4 (lstrip0 d))).isSome with
  | true => simp [List.find?, h1]
  | false =>
    cases h2 : (D (lstrip0 (zfill 4 (lstrip0 d)))).isSome with
    | true => simp [List.find?, h1, h2]
    | false =>
      cases h3 : (D (zfill 4 (rstrip0 (zfill 4 (lstrip0 d))))).isSome with
      | true => simp [List.find?, h1, h2, h3]
      | false => simp [List.find?, h1, h2, h3]

/-- Witness for C1 at the identifier "120abcdef", offset -6 and the
directory holding "0120" and "0012": the truncated form "120" has the
digit run "120" and the resolver agrees with the spec tier order,
returning "0120". -/
theorem resolver_matches_spec_tier_order_witness :
    (-6 : Int) < 0 ∧ "120abcdef" ≠ "" ∧
    digitRuns (pyTake "120abcdef" (-6)) = ["120"] ∧
    extract_key "120abcdef" dirBothPads (-6) =
      resolverTiers (zfill 4 (lstrip0 "120")) dirBothPads :=
  ⟨by decide, by decide, by decide,
    resolver_matches_spec_tier_order dirBothPads "120abcdef" (-6) "120" []
      (by decide) (by decide) (by decide)⟩

/-- C7 (amended): the tier-3 fallback also needs tier 1 to miss.  For
every directory and identifier whose truncated form's first digit run
left-strips to a string not a key of the directory, IF ALSO the
zero-padded candidate itself is not a key, and the candidate's
right-stripped re-padded form is a key, then the resolver returns that
right-stripped re-padded form. -/
theorem resolver_tier3_fallback (D : StoreDirectory) (s : String) (n : Int)
    (d : String) (ds : List String) (hs : s ≠ "")
    (hd : digitRuns (pyTake s n) = d :: ds)
    (h1 : D (zfill 4 (lstrip0 d)) = none)
    (h2 : D (lstrip0 d) = none)
    (h3 : (D (zfill 4 (rstrip0 (zfill 4 (lstrip0 d))))).isSome = true) :
    extract_key s D n = zfill 4 (rstrip0 (zfill 4 (lstrip0 d))) := by
  unfold extract_key
  rw [if_neg hs, hd]
  dsimp only
  rw [lstrip0_zfill d]
  simp [h1, h2, h3]

/-- Witness for C7 at "120abcdef" against the directory holding only
"0012": the run "120" left-strips to "120" (not a key), the candidate
"0120" is not a key, its right-stripped re-padded form "0012" is a
key, and the resolver returns "0012". -/
theorem resolver_tier3_fallback_witness :
    "120abcdef" ≠ "" ∧
    digitRuns (pyTake "120abcdef" (-6)) = ["120"] ∧
    dirRightPad (zfill 4 (lstrip0 "120")) = none ∧
    dirRightPad (lstrip0 "120") = none ∧
    (dirRightPad (zfill 4 (rstrip0 (zfill 4 (lstrip0 "120"))))).isSome = true ∧
    extract_key "120abcdef" dirRightPad (-6) =
      zfill 4 (rstrip0 (zfill 4 (lstrip0 "120"))) :=
  ⟨by decide, by decide, by decide, by decide, by decide,
    resolver_tier3_fallback dirRightPad "120abcdef" (-6) "120" []
      (by decide) (by decide) (by decide) (by decide) (by decide)⟩

/-- C7 counterexample: with both "0120" and "0012" in the directory,
the identifier "120abcdef" satisfies the claim's hypotheses — its run
"120" left-strips to "120", not a key; the right-stripped re-padded
form "0012" is a key — yet the resolver returns "0120" (the padded
candidate, found by tier 1), not "0012". -/
theorem resolver_tier3_fallback_counterexample :
    digitRuns (pyTake "120abcdef" (-6)) = ["120"] ∧
    dirBothPads (lstrip0 "120") = none ∧
    (dirBothPads (zfill 4 (rstrip0 (zfill 4 (lstrip0 "120"))))).isSome = true ∧
    extract_key "120abcdef" dirBothPads (-6) = "0120" ∧
    "0120" ≠ zfill 4 (rstrip0 (zfill 4 (lstrip0 "120"))) := by
  refine ⟨by decide, by decide, by decide, by decide, by decide⟩


/-- Zero-padding a fully numeric string to 4 yields a digit string of
length at least 4. -/
theorem zfill4_digitKeyShape (s : String) (h : pyIsDigit s = true) :
    digitKeyShape (zfill 4 s) := by
  unfold pyIsDigit at h
  rw [Bool.and_eq_true] at h
  unfold digitKeyShape zfill
  by_cases h4 : 4 ≤ s.data.length
  · rw [if_pos h4]
    exact ⟨h.2, h4⟩
  · rw [if_neg h4]
    constructor
    · show (List.replicate (4 - s.data.length) '0' ++ s.data).all Char.isDigit = true
      rw [List.all_append, Bool.and_eq_true]
      refine ⟨?_, h.2⟩
      rw [List.all_eq_true]
      intro c hc
      rw [List.eq_of_mem_replicate hc]
      decide
    · show 4 ≤ (List.replicate (4 - s.data.length) '0' ++ s.data).length
      rw [List.length_append, List.length_replicate]
      omega

/-- Whenever `key_formatter` does not exclude a cell, its result is a
digit string of length at least 4. -/
theorem key_formatter_shape (y : String) (h : key_formatter y ≠ "-1") :
    digitKeyShape (key_formatter y) := by
  unfold key_formatter at h ⊢
  by_cases h1 : pyStrip y = "" ∨ pyLower (pyStrip y) = "nan"
  · exact absurd (if_pos h1) h
  · rw [if_neg h1] at h ⊢
    dsimp only at h ⊢
    by_cases h2 : pyIsDigit (if pyStartsWith (pyStrip y) "#"
        then (⟨(pyStrip y).data.dropWhile fun c => c = '#'⟩ : String)
        else pyStrip y) = true
    · rw [if_pos h2]
      exact zfill4_digitKeyShape _ h2
    · exact absurd (if_neg h2) h

/-- The row loop of the normalizer only ever inserts keys of the digit
shape. -/
theorem storeRowStep_fold_shape (pairs : List (String × String)) :
    ∀ d : StoreDirectory, (∀ k, (d k).isSome = true → digitKeyShape k) →
      ∀ k, ((pairs.foldl storeRowStep d) k).isSome = true → digitKeyShape k := by
  induction pairs with
  | nil => intro d hd k hk; exact hd k hk
  | cons p ps ih =>
    intro d hd k hk
    refine ih (storeRowStep d p) ?_ k hk
    intro k' hk'
    unfold storeRowStep at hk'
    by_cases hfk : key_formatter p.2 ≠ "-1"
    · rw [if_pos hfk] at hk'
      unfold dinsert at hk'
      by_cases hkk : k' = key_formatter p.2
      · rw [hkk]
        exact key_formatter_shape p.2 hfk
      · rw [if_neg hkk] at hk'
        exact hd k' hk'
    · rw [if_neg hfk] at hk'
      exact hd k' hk'

/-- Every key of the two-sentinel fallback has the digit shape. -/
theorem fallbackDir_shape (k : String)
    (hk : (fallbackDir k).isSome = true) : digitKeyShape k := by
  unfold fallbackDir dinsert at hk
  by_cases h0 : k = "0000"
  · rw [h0]; constructor <;> decide
  · rw [if_neg h0] at hk
    by_cases h1 : k = "1997"
    · rw [h1]; constructor <;> decide
    · rw [if_neg h1] at hk
      simp [emptyDir] at hk

/-- C4 (amended): every key of the directory returned by the Store
Directory Normalizer consists only of digits and has length AT LEAST
4; a row whose code cell has 5 or more digits yields that cell itself
as a key, longer than 4 characters (`zfill` pads but never
truncates). -/
theorem normalizer_key_shape (input : Option MapTable) (k : String)
    (hk : ((get_store_names input) k).isSome = true) :
    k.data.all Char.isDigit = true ∧ 4 ≤ k.data.length := by
  suffices h : digitKeyShape k from h
  cases input with
  | none => exact fallbackDir_shape k hk
  | some t =>
    unfold get_store_names at hk
    dsimp only at hk
    by_cases h3 : 3 ≤ t.nCols
    · rw [if_pos h3] at hk
      dsimp only at hk
      unfold dinsert at hk
      by_cases h0 : k = "0000"
      · rw [h0]; constructor <;> decide
      · rw [if_neg h0] at hk
        by_cases h1 : k = "1997"
        · rw [h1]; constructor <;> decide
        · rw [if_neg h1] at hk
          exact storeRowStep_fold_shape _ emptyDir
            (fun k' hk' => by simp [emptyDir] at hk') k hk
    · by_cases h2 : 2 ≤ t.nCols
      · rw [if_neg h3, if_pos h2] at hk
        dsimp only at hk
        unfold dinsert at hk
        by_cases h0 : k = "0000"
        · rw [h0]; constructor <;> decide
        · rw [if_neg h0] at hk
          by_cases h1 : k = "1997"
          · rw [h1]; constructor <;> decide
          · rw [if_neg h1] at hk
            exact storeRowStep_fold_shape _ emptyDir
              (fun k' hk' => by simp [emptyDir] at hk') k hk
      · rw [if_neg h3, if_neg h2] at hk
        exact fallbackDir_shape k hk

/-- Witness for C4 (amended) at the unreadable-input fallback and key
"0000". -/
theorem normalizer_key_shape_witness :
    ((get_store_names none) "0000").isSome = true ∧
    ("0000".data.all Char.isDigit = true ∧ 4 ≤ "0000".data.length) :=
  ⟨by decide, normalizer_key_shape none "0000" (by decide)⟩

/-- C4 counterexample: the mapping row with the 5-digit code "12345"
puts the 5-character key "12345" into the directory, refuting the
claim that every key has exactly 4 characters. -/
theorem normalizer_key_length_counterexample :
    get_store_names (some wideCodeTable) "12345" = some "X" ∧
    "12345".data.length = 5 := by
  refine ⟨by decide, by decide⟩

/-- Sums distribute over a pointwise sum of two maps. -/
theorem sum_map_add {α : Type} (l : List α) (f g : α → ℚ) :
    (l.map fun x => f x + g x).sum = (l.map f).sum + (l.map g).sum := by
  induction l with
  | nil => simp
  | cons a t ih => simp [ih]; ring

/-- Over a duplicate-free list containing `a`, the indicator map sums
to its single value. -/
theorem sum_map_ite_single (l : List String) (a : String) (v : ℚ)
    (hnd : l.Nodup) (ha : a ∈ l) :
    (l.map fun nm => if a = nm then v else 0).sum = v := by
  induction l with
  | nil => cases ha
  | cons b t ih =>
    rcases List.nodup_cons.mp hnd with ⟨hb, ht⟩
    by_cases hab : a = b
    · subst hab
      simp only [List.map_cons, List.sum_cons, if_pos rfl]
      have hz : ∀ x ∈ t.map fun nm => if a = nm then v else (0 : ℚ), x = 0 := by
        intro x hx
        rcases List.mem_map.mp hx with ⟨nm, hnm, hxv⟩
        have hanm : a ≠ nm := fun h => hb (h ▸ hnm)
        rw [if_neg hanm] at hxv
        exact hxv.symm
      rw [List.sum_eq_zero hz, add_zero]
      simp
    · have ha' : a ∈ t := by
        rcases List.mem_cons.mp ha with h | h
        · exact absurd h hab
        · exact h
      simp only [List.map_cons, List.sum_cons, if_neg hab]
      rw [ih ht ha', zero_add]

/-- Fiberwise sums over any duplicate-free list covering all the keys
add up to the total sum. -/
theorem sum_fiberwise_eq_total (pairs : List (String × ℚ)) (l : List String)
    (hnd : l.Nodup) (hcov : ∀ p ∈ pairs, p.1 ∈ l) :
    (l.map fun nm => ((pairs.filter fun p => p.1 == nm).map Prod.snd).sum).sum
      = (pairs.map Prod.snd).sum := by
  induction pairs with
  | nil =>
    rw [List.map_nil, List.sum_nil, List.sum_eq_zero]
    intro x hx
    rcases List.mem_map.mp hx with ⟨nm, _, hxv⟩
    simp at hxv
    exact hxv.symm
  | cons q ps ih =>
    have hq : q.1 ∈ l := hcov q (List.mem_cons_self q ps)
    have hcov' : ∀ p ∈ ps, p.1 ∈ l := fun p hp => hcov p (List.mem_cons_of_mem q hp)
    have hpt : (fun nm => ((List.filter (fun p => p.1 == nm) (q :: ps)).map
          Prod.snd).sum)
        = fun nm => (if q.1 = nm then q.2 else 0)
            + ((ps.filter fun p => p.1 == nm).map Prod.snd).sum := by
      funext nm
      by_cases h : q.1 = nm
      · simp [List.filter_cons, h]
      · simp [List.filter_cons, h]
    rw [hpt, sum_map_add, sum_map_ite_single l q.1 q.2 hnd hq, ih hcov',
      List.map_cons, List.sum_cons]

/-- Grouping by key and summing loses and duplicates no amount. -/
theorem groupSum_total (pairs : List (String × ℚ)) :
    ((groupSum pairs).map Prod.snd).sum = (pairs.map Prod.snd).sum := by
  unfold groupSum
  rw [List.map_map]
  exact sum_fiberwise_eq_total pairs ((pairs.map Prod.fst).dedup)
    (List.nodup_dedup _)
    (fun p hp => List.mem_dedup.mpr (List.mem_map_of_mem Prod.fst hp))

/-- C2: for every store directory and every list of successfully
parsed transaction rows, the per-file store summary — resolved store
name grouped, amounts summed, the "Unknown" bucket included like any
other name — carries exactly the total amount of the parsed rows. -/
theorem summary_total_equals_rows_total (D : StoreDirectory)
    (rows : List (String × ℚ)) :
    ((storeSummary D rows).map Prod.snd).sum = (rows.map Prod.snd).sum := by
  unfold storeSummary
  rw [groupSum_total, List.map_map]
  rfl

/-- Filtering by a predicate is unchanged by first removing elements
the predicate rejects. -/
theorem filter_remove_rejected {α : Type} [DecidableEq α] (p : α → Bool)
    (a : α) (hpa : p a = false) :
    ∀ l : List α, (l.filter fun q => decide (q ≠ a)).filter p = l.filter p := by
  intro l
  induction l with
  | nil => rfl
  | cons b t ih =>
    by_cases hba : b = a
    · subst hba
      rw [List.filter_cons, if_neg (by simp), ih, List.filter_cons,
        if_neg (by simp [hpa])]
    · rw [List.filter_cons, if_pos (by simp [hba]), List.filter_cons, ih,
        List.filter_cons]

/-- C5: in the Sales Block Parser's aggregation, a parsed salesperson
entry is kept in the per-salesperson output table exactly when its
metric values sum to a nonzero amount (in particular an all-zero block
is excluded entirely), and removing a zero-sum entry leaves every
actual total unchanged — a zero-sum salesperson contributes nothing to
ActualTotals. -/
theorem zero_sum_salesperson_excluded (sales : Sales)
    (entry : String × Metrics) (k : String) (hmem : entry ∈ sales) :
    (entry ∈ retainedSales sales ↔ metricSum entry.2 ≠ 0) ∧
    (metricSum entry.2 = 0 →
      actualTotals (sales.filter fun q => decide (q ≠ entry)) k
        = actualTotals sales k) := by
  constructor
  · unfold retainedSales
    rw [List.mem_filter]
    constructor
    · intro h
      exact of_decide_eq_true h.2
    · intro h
      exact ⟨hmem, decide_eq_true h⟩
  · intro hz
    unfold actualTotals retainedSales
    rw [filter_remove_rejected _ entry (by simp [hz])]

/-- Witness for C5 at a one-salesperson dict whose single metric value
is zero: the entry is parsed input, and the theorem applies at it. -/
theorem zero_sum_salesperson_excluded_witness :
    (("John", [("period-to-dat", (0 : ℚ))]) ∈ salesZeroBlock) ∧
    (((("John", [("period-to-dat", (0 : ℚ))]) ∈ retainedSales salesZeroBlock) ↔
        metricSum [("period-to-dat", (0 : ℚ))] ≠ 0) ∧
      (metricSum [("period-to-dat", (0 : ℚ))] = 0 →
        actualTotals (salesZeroBlock.filter fun q =>
            decide (q ≠ ("John", [("period-to-dat", (0 : ℚ))]))) "period-to-date"
          = actualTotals salesZeroBlock "period-to-date")) :=
  ⟨by decide,
    zero_sum_salesperson_excluded salesZeroBlock
      ("John", [("period-to-dat", (0 : ℚ))]) "period-to-date" (by decide)⟩

/-- C6 counterexample: on the spec's scenario — "Salesperson John"
followed by "Period To Date"/100, "Year To Date"/200, "Prior Year"/50
— the block parsed for John carries the keys with their final
character dropped, and in particular has NO entry under
"period-to-date", refuting the claimed block contents. -/
theorem sales_scenario_block_counterexample :
    scanBlocks salesFrameScenario = Except.ok [("John", blockJohn)] ∧
    (blockJohn.find? fun q => decide (q.1 = "period-to-date")) = none ∧
    (blockJohn.find? fun q => decide (q.1 = "period-to-dat"))
      = some ("period-to-dat", 100) := by
  refine ⟨by decide, by decide, by decide⟩

/-- C6 (amended): the scenario's rows produce for "John" the block
with keys "period-to-dat" -> 100, "year-to-dat" -> 200,
"prior-yea" -> 50 (each metric key is the lower-cased hyphen-joined
Customer cell with its final character dropped), and the block is
retained since its metrics sum to 350, nonzero. -/
theorem sales_scenario_block_retained :
    scanBlocks salesFrameScenario = Except.ok [("John", blockJohn)] ∧
    metricVal blockJohn "period-to-dat" = 100 ∧
    metricVal blockJohn "year-to-dat" = 200 ∧
    metricVal blockJohn "prior-yea" = 50 ∧
    retainedSales [("John", blockJohn)] = [("John", blockJohn)] := by
  refine ⟨by decide, by decide, by decide, by decide, ?_⟩
  have hsum : metricSum blockJohn = 350 := by
    simp [metricSum, blockJohn]
    norm_num
  have hne : decide (metricSum blockJohn ≠ 0) = true := by
    rw [hsum]; decide
  unfold retainedSales
  rw [List.filter_cons, if_pos hne]
  rfl

/-- C10 (amended): whenever the block scan reaches — not already
consumed by a previous block, i.e. with the skip bound below the
current index — a row whose Customer cell is a string starting
(case-insensitively) with "salesperson" but consisting of a single
space-delimited token, taking the second token raises an uncaught
IndexError: the whole scan aborts with an error instead of skipping
the row. -/
theorem lone_salesperson_token_aborts_scan (df rest : List SRow) (i : Nat)
    (j : Int) (acc : Sales) (row : SRow) (c : String)
    (hj : j < (i : Int)) (hc : row.customer = some c)
    (hsp : pyStartsWith (pyLower c) "salesperson" = true)
    (hone : (pySplitSpace c).length = 1) :
    scanAux df (row :: rest) i j acc = Except.error () := by
  have hget : (pySplitSpace c).get? 1 = none := by
    rw [List.get?_eq_none]
    omega
  unfold scanAux
  rw [if_neg (not_le.mpr hj)]
  simp only [hc, hsp, if_true, hget]

/-- Witness for C10 (amended): a one-row export whose Customer cell is
exactly "Salesperson" makes the whole scan return an error. -/
theorem lone_salesperson_token_aborts_scan_witness :
    ((-1 : Int) < (0 : Nat)) ∧
    (⟨some "Salesperson", 5⟩ : SRow).customer = some "Salesperson" ∧
    pyStartsWith (pyLower "Salesperson") "salesperson" = true ∧
    (pySplitSpace "Salesperson").length = 1 ∧
    scanAux salesFrameLone salesFrameLone 0 (-1) [] = Except.error () :=
  ⟨by decide, by decide, by decide, by decide,
    lone_salesperson_token_aborts_scan salesFrameLone [] 0 (-1) []
      ⟨some "Salesperson", 5⟩ "Salesperson" (by decide) (by decide)
      (by decide) (by decide)⟩

/-- C10 counterexample: an export CAN contain a single-token
"Salesperson" Customer cell without the parser raising — here that row
is the first metric row of the block opened by "Salesperson John", so
it is consumed as a metric (key "salesperso") and the scan succeeds,
refuting the claim read over every export containing such a row. -/
theorem lone_salesperson_consumed_no_error :
    salesFrameConsumed.get? 1 = some ⟨some "Salesperson", 100⟩ ∧
    pyStartsWith (pyLower "Salesperson") "salesperson" = true ∧
    (pySplitSpace "Salesperson").length = 1 ∧
    scanBlocks salesFrameConsumed =
      Except.ok [("John", [("salesperso", 100), ("a-", 200), ("c-", 50)])] := by
  refine ⟨by decide, by decide, by decide, by decide⟩

/-- A line satisfying `headerSkip` leaves the header scan unchanged. -/
theorem headerScan_cons_skip (l : String) (ls : List String)
    (h : headerSkip l) : headerScan (l :: ls) = headerScan ls := by
  simp only [headerScan]
  by_cases hd : pyStartsWith l "Date" = true
  · rw [if_pos hd, h.1 hd]
  · rw [if_neg hd]
    by_cases hp : pyStartsWith l "Payment" = true
    · rw [if_pos hp, h.2 hp]
    · rw [if_neg hp]

/-- A prefix of `headerSkip` lines leaves the header scan unchanged. -/
theorem headerScan_append_skip (pre rest : List String)
    (h : ∀ l ∈ pre, headerSkip l) :
    headerScan (pre ++ rest) = headerScan rest := by
  induction pre with
  | nil => rfl
  | cons l t ih =>
    rw [List.cons_append,
      headerScan_cons_skip l _ (h l (List.mem_cons_self l t)),
      ih (fun x hx => h x (List.mem_cons_of_mem l hx))]

/-- With no successful Date-line extraction anywhere, the header scan
collects at most one value (one payment id). -/
theorem headerScan_no_date (lines : List String)
    (h : ∀ l ∈ lines, pyStartsWith l "Date" = true → (extract_mm_dd l).2 = none) :
    headerScan lines = [] ∨ ∃ p, headerScan lines = [p] := by
  induction lines with
  | nil => exact Or.inl rfl
  | cons l t ih =>
    have ih' := ih (fun x hx hd => h x (List.mem_cons_of_mem l hx) hd)
    simp only [headerScan]
    by_cases hd : pyStartsWith l "Date" = true
    · rw [if_pos hd, h l (List.mem_cons_self l t) hd]
      exact ih'
    · rw [if_neg hd]
      by_cases hp : pyStartsWith l "Payment" = true
      · rw [if_pos hp]
        cases hpay : (extract_payment_id l).2 with
        | none => exact ih'
        | some p => exact Or.inr ⟨p, rfl⟩
      · rw [if_neg hp]
        exact ih'

/-- A line starting with "Payment" does not start with "Date". -/
theorem payment_line_not_date_line (l : String)
    (h : pyStartsWith l "Payment" = true) :
    pyStartsWith l "Date" = true → False := by
  intro hd
  unfold pyStartsWith at h hd
  have h7 : List.take 7 l.data = "Payment".data := eq_of_beq h
  have h4 : List.take 4 l.data = "Date".data := eq_of_beq hd
  have hpm : List.take 4 l.data = ['P', 'a', 'y', 'm'] := by
    have hmin : List.take 4 (List.take 7 l.data) = List.take 4 l.data := by
      rw [List.take_take]
      norm_num
    rw [← hmin, h7]
    decide
  rw [h4] at hpm
  exact absurd hpm (by decide)

/-- C8 (amended): the section name is "date #paymentId" exactly when
the header scan's first two collected values are that date and that
id — in particular when exactly one Date-prefixed line yields an MM/DD
match before the first Payment-prefixed line with a successful
payment-id extraction; and the name falls back to the original
uploaded filename whenever no Date-prefixed line yields a match (the
scan then collects fewer than two values).  The original claim's
"whenever either extraction fails" direction is dropped: two matching
Date lines with no Payment line still name the section from the two
dates. -/
theorem section_name_from_header_values :
    (∀ (pre mid post : List String) (dl pl orig d p : String),
        (∀ l ∈ pre, headerSkip l) → (∀ l ∈ mid, headerSkip l) →
        pyStartsWith dl "Date" = true → (extract_mm_dd dl).2 = some d →
        pyStartsWith pl "Payment" = true → (extract_payment_id pl).2 = some p →
        sectionName (pre ++ dl :: (mid ++ pl :: post)) orig
          = d ++ " #" ++ p) ∧
    (∀ (lines : List String) (orig : String),
        (∀ l ∈ lines, pyStartsWith l "Date" = true →
          (extract_mm_dd l).2 = none) →
        sectionName lines orig = orig) := by
  constructor
  · intro pre mid post dl pl orig d p hpre hmid hdl hd hpl hp
    unfold sectionName
    rw [headerScan_append_skip pre _ hpre]
    simp only [headerScan]
    rw [if_pos hdl, hd, headerScan_append_skip mid _ hmid]
    simp only [headerScan]
    rw [if_neg (fun hdd => payment_line_not_date_line pl hpl hdd),
      if_pos hpl, hp]
  · intro lines orig h
    unfold sectionName
    rcases headerScan_no_date lines h with h0 | ⟨p, h1⟩
    · rw [h0]
    · rw [h1]

/-- Witness for C8 at a two-line header "Date: 01/04/2026" and
"Payment #12345", and at a no-match single line: the first yields the
section name "01/04 #12345", the second falls back to the filename. -/
theorem section_name_from_header_values_witness :
    pyStartsWith "Date: 01/04/2026" "Date" = true ∧
    (extract_mm_dd "Date: 01/04/2026").2 = some "01/04" ∧
    pyStartsWith "Payment #12345" "Payment" = true ∧
    (extract_payment_id "Payment #12345").2 = some "12345" ∧
    sectionName ["Date: 01/04/2026", "Payment #12345"] "report.pdf"
      = "01/04" ++ " #" ++ "12345" ∧
    sectionName headerLinesNoMatch "report.pdf" = "report.pdf" :=
  ⟨by decide, by decide, by decide, by decide,
    section_name_from_header_values.1 [] [] [] "Date: 01/04/2026"
      "Payment #12345" "report.pdf" "01/04" "12345" (by simp) (by simp)
      (by decide) (by decide) (by decide) (by decide),
    section_name_from_header_values.2 headerLinesNoMatch "report.pdf"
      (by intro l hl hd; revert hd; fin_cases hl <;> decide)⟩

/-- C8 counterexample: a first page with two matching Date lines and
no Payment line at all — the payment-id extraction never succeeds —
is named "01/02 #03/04" from the two dates, not the original uploaded
filename, refuting the claimed fallback. -/
theorem section_name_two_dates_counterexample :
    pyStartsWith "Date 01/02" "Payment" = false ∧
    pyStartsWith "Date 03/04" "Payment" = false ∧
    sectionName ["Date 01/02", "Date 03/04"] "report.pdf" = "01/02 #03/04" ∧
    "01/02 #03/04" ≠ "report.pdf" := by
  refine ⟨by decide, by decide, by decide, by decide⟩
